import Mathlib

/-!
Verification of the python-was bridge (WAS ↔ WSGI gateway).

Shallow embedding of the relevant parts of `src/http.cxx`, `src/http.hxx`,
`src/was.cxx` and `src/wsgi.cxx`.  C++ byte strings (`std::string`,
`std::string_view`) are modelled as `List Char` where every element is a
single byte (all data handled by the program is Latin-1 / raw bytes, and
`native_string` is a byte-identity Latin-1 decode).  Machine integers
(`size_t`, `uint64_t`) are modelled as `Nat`; the sizes involved never
approach the word size, and `size_t` subtraction only occurs as
`data.size() - cursor` under the invariant `cursor <= data.size()`,
matching Nat truncated subtraction.
-/

/-- One byte of a C++ string. -/
abbrev Byte := Char

/-- A C++ byte string. -/
abbrev ByteStr := List Char

/-- Modelled from the spec: `ToUpperASCII` from the external utility library
(`util/CharUtil.hxx`, not under `src/`): ASCII-only upper-casing, mapping
`a`..`z` to `A`..`Z` and leaving every other byte unchanged. -/
def ToUpperASCII (c : Byte) : Byte :=
  if 'a' ≤ c ∧ c ≤ 'z' then Char.ofNat (c.toNat - 0x20) else c

/-- Modelled from the spec: `ToLowerASCII` from the external utility library
(`util/CharUtil.hxx`, not under `src/`): ASCII-only lower-casing (the
"ASCII-only lowercase folding" of spec section 4.1). -/
def ToLowerASCII (c : Byte) : Byte :=
  if 'A' ≤ c ∧ c ≤ 'Z' then Char.ofNat (c.toNat + 0x20) else c

/-- `HeaderMatch` from `src/http.cxx`: true iff `a` is non-empty, the lengths
agree and the strings are equal under `ToLowerASCII` folding. -/
def HeaderMatch (a b : ByteStr) : Bool :=
  if a.isEmpty || a.length != b.length then false
  else (List.zip a b).all fun p => ToLowerASCII p.1 == ToLowerASCII p.2

/-- `Uri` from `src/http.hxx`: the path and query slices of a request URI. -/
structure Uri where
  path : ByteStr
  query : ByteStr
  deriving Repr, DecidableEq

/-- `Uri::split` from `src/http.cxx`: `q = uri.find(q-mark)`,
`path = uri.substr(0, q)`, `query = (q == npos) ? "" : uri.substr(q)`.
`substr(0, q)` of the first match index is `takeWhile`, and `substr(q)`
keeps the question mark itself (`dropWhile`). -/
def Uri.split (uri : ByteStr) : Uri :=
  if uri.contains '?' then
    { path := uri.takeWhile (· ≠ '?'), query := uri.dropWhile (· ≠ '?') }
  else
    { path := uri, query := [] }

/-- `StringInputStream` from `src/http.hxx`: a stored string plus a read
cursor (initially 0). -/
structure StringInputStream where
  data : ByteStr
  cursor : Nat
  deriving Repr, DecidableEq

/-- `StringInputStream::Read` from `src/http.cxx`:
`to_read = min(data.size() - cursor, dest.size())`, copy
`data[cursor .. cursor+to_read)` into the destination, advance the cursor.
Returns `(to_read, bytes copied into dest, stream after the call)`. -/
def StringInputStream.Read (s : StringInputStream) (destSize : Nat) :
    Nat × ByteStr × StringInputStream :=
  let to_read := min (s.data.length - s.cursor) destSize
  (to_read, (s.data.drop s.cursor).take to_read,
   { s with cursor := s.cursor + to_read })

/-- The `size < 0` loop of `WsgiInputStream::read` from `src/wsgi.cxx`:
`while ((n = stream->Read(read_buf)) > 0) ret.append(...)` with a 4096-byte
`read_buf`.  The underlying `InputStream` is the repository's
`StringInputStream`.  Returns `(accumulated bytes, number of Read calls
performed, stream after the loop)`. -/
def ReadToEof (s : StringInputStream) : ByteStr × Nat × StringInputStream :=
  if h : (s.Read 4096).1 > 0 then
    let rest := ReadToEof (s.Read 4096).2.2
    ((s.Read 4096).2.1 ++ rest.1, rest.2.1 + 1, rest.2.2)
  else
    ([], 1, (s.Read 4096).2.2)
termination_by s.data.length - s.cursor
decreasing_by
  simp only [StringInputStream.Read] at h ⊢
  omega

/-- `WsgiInputStream::read` from `src/wsgi.cxx` (lines 37-71): `size == 0`
returns empty bytes without touching the stream; `size > 0` performs a single
`Read` into a `size`-byte buffer and returns the bytes actually read
(`buf.resize(stream->Read(buf))`); `size < 0` loops in 4096-byte chunks until
`Read` returns 0 and concatenates.  Returns `(bytes, number of underlying
Read calls, stream after the call)`. -/
def WsgiInputStream.read (s : StringInputStream) (size : Int) :
    ByteStr × Nat × StringInputStream :=
  if size = 0 then ([], 0, s)
  else if size > 0 then
    let r := s.Read size.toNat
    (r.2.1, 1, r.2.2)
  else
    ReadToEof s

/-- The calls a `WasResponder` makes into the WAS transport
(`was_simple_status`, `was_simple_set_header_n`, `was_simple_set_length`,
`was_simple_end`, `was_simple_write`), recorded as events. -/
inductive WasEvent
  | hstatus (code : Nat)
  | set_header (name value : ByteStr)
  | set_length (n : Nat)
  | wend
  | write (data : ByteStr)
  deriving Repr, DecidableEq

/-- `HttpResponse` from `src/http.hxx`: status 0 until set by
`start_response`, the forwarded header list, and the `Content-Length`
extracted from the application's headers. -/
structure HttpResponse where
  status : Nat := 0
  headers : List (ByteStr × ByteStr) := []
  content_length : Option Nat := none
  deriving Repr, DecidableEq

/-- `WasResponder` from `src/was.cxx`: per-request responder state.  Note the
field initializer in the source is `std::optional<uint64_t>
content_length_left = 0`, i.e. an *engaged* optional holding 0. -/
structure WasResponder where
  headers_sent : Bool := false
  content_length_left : Option Nat := some 0
  deriving Repr, DecidableEq

/-- `WasResponder::SendHeaders` from `src/was.cxx` (lines 40-68): emit the
status, emit each header in order, record `content_length_left`, then call
`end()` when the content length is exactly 0, `set_length` when it is some
non-zero value, nothing when unknown; finally mark the headers as sent.
Returns the transport events together with the updated responder. -/
def WasResponder.SendHeaders (r : WasResponder) (response : HttpResponse) :
    List WasEvent × WasResponder :=
  let header_evs := response.headers.map fun p => WasEvent.set_header p.1 p.2
  let tail_evs : List WasEvent :=
    match response.content_length with
    | some 0 => [WasEvent.wend]
    | some n => [WasEvent.set_length n]
    | none => []
  (WasEvent.hstatus response.status :: header_evs ++ tail_evs,
   { r with headers_sent := true, content_length_left := response.content_length })

/-- `WasResponder::SendBody` from `src/was.cxx` (lines 71-91):
`write_len = content_length_left ? min(left, size) : size`; write that many
leading bytes; afterwards, when the remaining length is known, raise the
write-overflow error if the chunk is larger than what is left, otherwise
subtract the chunk size.  The write event is emitted even on the error path,
exactly as `was_simple_write` is called before the overflow check. -/
def WasResponder.SendBody (r : WasResponder) (body_data : ByteStr) :
    List WasEvent × Except String WasResponder :=
  let write_len :=
    match r.content_length_left with
    | some l => min l body_data.length
    | none => body_data.length
  ([WasEvent.write (body_data.take write_len)],
   match r.content_length_left with
   | some l =>
     if body_data.length > l then
       Except.error "write-overflow"
     else
       Except.ok { r with content_length_left := some (l - body_data.length) }
   | none => Except.ok r)

/-- A maximal sequence of `SendBody` calls: each chunk is sent in turn and the
run stops at the first exception, exactly as a C++ exception propagates out
of `WsgiRequestHandler::Process` and ends the request. -/
def sendBodySeq (r : WasResponder) (chunks : List ByteStr) :
    List WasEvent × Except String WasResponder :=
  match chunks with
  | [] => ([], Except.ok r)
  | c :: rest =>
    let step := r.SendBody c
    match step.2 with
    | Except.error e => (step.1, Except.error e)
    | Except.ok r' =>
      let tail := sendBodySeq r' rest
      (step.1 ++ tail.1, tail.2)

/-- Number of body bytes an event carries to the transport. -/
def eventBytes : WasEvent → Nat
  | WasEvent.write data => data.length
  | _ => 0

/-- Total number of body bytes in a list of transport events. -/
def writtenLen (evs : List WasEvent) : Nat := (evs.map eventBytes).sum

/-- Whether an `Except` result is the error case. -/
def isErrorResult {ε α : Type} : Except ε α → Bool
  | Except.error _ => true
  | Except.ok _ => false

/-- The separator bytes of RFC 2616 used by `is_valid_header_name` in
`src/wsgi.cxx`. -/
def headerNameSeparators : ByteStr :=
  ['(', ')', '<', '>', '@', ',', ';', ':', '\\', '\"',
   '/', '[', ']', '?', '=', '\x7b', '\x7d', ' ', '\t']

/-- `is_valid_header_name` from `src/wsgi.cxx` (lines 164-197): non-empty,
and every byte is a CHAR in 32..126 that is not a separator. -/
def is_valid_header_name (name : ByteStr) : Bool :=
  if name.isEmpty then false
  else name.all fun c =>
    32 ≤ c.toNat && c.toNat < 127 && !(headerNameSeparators.contains c)

/-- `is_valid_header_value` from `src/wsgi.cxx` (lines 217-245): every byte
is VCHAR (0x21-0x7E), obs-text (0x80-0xFF), SP or HTAB. -/
def is_valid_header_value (value : ByteStr) : Bool :=
  value.all fun c =>
    (0x21 ≤ c.toNat && c.toNat ≤ 0x7E) || (0x80 ≤ c.toNat && c.toNat ≤ 0xFF) ||
    c.toNat = 0x20 || c.toNat = 0x09

/-- Modelled from the spec: `http_header_is_hop_by_hop` from the external
`http/header.h` library (not under `src/`): the fixed hop-by-hop set of spec
section 4.2, which (as the source comment in `check_header_name` notes) also
contains `content-length`.  The argument is already lower-cased by the
caller. -/
def http_header_is_hop_by_hop (lower : ByteStr) : Bool :=
  ["connection", "keep-alive", "proxy-authenticate", "proxy-authorization",
   "te", "trailer", "transfer-encoding", "upgrade", "content-length"].any
    fun s => lower == s.toList

/-- The Python errors `StartResponse` can set, plus the re-raise of a
supplied `exc_info` exception. -/
inductive PyErr
  | typeError (msg : String)
  | valueError (msg : String)
  | assertionError (msg : String)
  | reraise
  deriving Repr, DecidableEq

/-- `check_header_name` from `src/wsgi.cxx` (lines 199-215): reject invalid
names with a ValueError, then reject hop-by-hop names (after ASCII
lower-casing, and excluding `content-length` itself from the hop-by-hop
verdict) with a ValueError. -/
def check_header_name (name : ByteStr) : Option PyErr :=
  if !is_valid_header_name name then
    some (PyErr.valueError "Invalid header name")
  else
    let lower := name.map ToLowerASCII
    if lower ≠ "content-length".toList && http_header_is_hop_by_hop lower then
      some (PyErr.valueError "Hop-by-hop header is not allowed")
    else none

/-- `check_header_value` from `src/wsgi.cxx` (lines 247-255). -/
def check_header_value (value : ByteStr) : Option PyErr :=
  if !is_valid_header_value value then
    some (PyErr.valueError "Invalid header value")
  else none

/-- Modelled from the spec: `ParseInteger` from the external
`util/NumberParser.hxx` (not under `src/`): parse a non-empty all-digit
string as an unsigned decimal number that must fit the target integer type
(given by `bound`, exclusive). -/
def ParseInteger (bound : Nat) (s : ByteStr) : Option Nat :=
  if s.isEmpty || !s.all (fun c => c.isDigit) then none
  else
    let v := s.foldl (fun acc c => acc * 10 + (c.toNat - 48)) 0
    if v < bound then some v else none

/-- Modelled from the spec: `http_status_is_valid` from the external
`http/status.h` library (not under `src/`): the recognized HTTP status code
set, 100..599. -/
def http_status_is_valid (s : Nat) : Bool :=
  100 ≤ s && s < 600

/-- One iteration of the header loop of `StartResponse` in `src/wsgi.cxx`
(lines 380-423): validate name and value; a `Content-Length` header is parsed
into `response.content_length` and *not* appended to the forwarded list
(`continue`); every other header is appended via `emplace_back`. -/
def addHeader (response : HttpResponse) (name value : ByteStr) :
    Except PyErr HttpResponse :=
  match check_header_name name with
  | some e => Except.error e
  | none =>
    match check_header_value value with
    | some e => Except.error e
    | none =>
      if HeaderMatch name ("Content-Length".toList) then
        match ParseInteger (2 ^ 64) value with
        | none => Except.error (PyErr.valueError "Could not parse Content-Length header")
        | some num => Except.ok { response with content_length := some num }
      else
        Except.ok { response with headers := response.headers ++ [(name, value)] }

/-- The whole header loop of `StartResponse`: headers already accumulated in
`response` stay in place (the loop only ever `emplace_back`s); the loop stops
at the first validation error, leaving the headers added so far in the
response, exactly as the early `return nullptr` leaves the partially mutated
`response` behind. -/
def addHeaders (response : HttpResponse) (hs : List (ByteStr × ByteStr)) :
    HttpResponse × Option PyErr :=
  match hs with
  | [] => (response, none)
  | (n, v) :: rest =>
    match addHeader response n v with
    | Except.error e => (response, some e)
    | Except.ok r' => addHeaders r' rest

/-- The per-request state shared between `StartResponse` and
`WsgiRequestHandler::Process` via the `StartResponseContext` capsule:
the response record and the responder. -/
structure WsgiState where
  response : HttpResponse
  responder : WasResponder
  deriving Repr, DecidableEq

/-- The initial per-request state of `WsgiRequestHandler::Process`: a
default-constructed `HttpResponse` and a fresh `WasResponder`. -/
def initWsgiState : WsgiState :=
  { response := {}, responder := {} }

/-- The tail of `StartResponse` from `src/wsgi.cxx` (lines 362-433), reached
once the multi-call checks have passed: parse the status code (digits before
the first space, as `uint16_t`), store it, reject unrecognized codes, run the
header loop, and finally send the headers immediately iff
`response.content_length == 0` (an engaged optional holding 0).
Returns `(state after the call, transport events, error if any)`.
Note the source stores the parsed status *before* validating it, and leaves
partially accumulated headers behind on a mid-loop validation error. -/
def startResponseMain (st : WsgiState) (status : ByteStr)
    (headers : List (ByteStr × ByteStr)) :
    WsgiState × List WasEvent × Option PyErr :=
  match ParseInteger (2 ^ 16) (status.takeWhile (· ≠ ' ')) with
  | none => (st, [], some (PyErr.valueError "Could not parse status code"))
  | some code =>
    let st1 : WsgiState := { st with response := { st.response with status := code } }
    if !http_status_is_valid code then
      (st1, [], some (PyErr.valueError "Invalid HTTP Status"))
    else
      match addHeaders st1.response headers with
      | (resp', some e) => ({ st1 with response := resp' }, [], some e)
      | (resp', none) =>
        if resp'.content_length = some 0 then
          let sh := st1.responder.SendHeaders resp'
          ({ response := resp', responder := sh.2 }, sh.1, none)
        else
          ({ st1 with response := resp' }, [], none)

/-- `StartResponse` from `src/wsgi.cxx` (lines 304-433), with the Python
argument-unpacking layer stripped: `exc_info` records whether a (valid)
exc_info triple was supplied.  With `exc_info` and headers already sent, the
supplied exception is re-raised; without `exc_info`, a second call (non-zero
stored status) raises an AssertionError; otherwise processing continues in
`startResponseMain`. -/
def StartResponse (st : WsgiState) (status : ByteStr)
    (headers : List (ByteStr × ByteStr)) (exc_info : Bool) :
    WsgiState × List WasEvent × Option PyErr :=
  if exc_info then
    if st.responder.headers_sent then
      (st, [], some PyErr.reraise)
    else
      startResponseMain st status headers
  else if st.response.status ≠ 0 then
    (st, [], some (PyErr.assertionError
      "start_response must not be called more than once without exc_info"))
  else
    startResponseMain st status headers

/-- `TranslateHeader` from `src/wsgi.cxx` (lines 435-447), byte for byte:
`std::string str(header_name.size() + 5, ZERO)` builds `size + 5` NUL bytes,
`str.append("HTTP_")` then appends five more bytes *at the end*, and the loop
overwrites positions `0 .. size-1` with the upper-cased, dash-to-underscore
translated name (`ToUpperASCII` of a dash is a dash, so testing the stored
byte is the same as testing the translated byte).  The fold mirrors the
index loop via `List.set`. -/
def TranslateHeader (header_name : ByteStr) : ByteStr :=
  let str := List.replicate (header_name.length + 5) '\x00' ++ "HTTP_".toList
  (List.range header_name.length).foldl
    (fun s i =>
      let c := ToUpperASCII (header_name.getD i '\x00')
      s.set i (if c = '-' then '_' else c))
    str

/-- What survives of a `std::string` when it is handed to
`PyDict_SetItemString` through `c_str()`: the bytes before the first NUL. -/
def cStr (s : ByteStr) : ByteStr :=
  s.takeWhile (· ≠ '\x00')

/-- The header-copy loop of `WsgiRequestHandler::Process` from `src/wsgi.cxx`
(lines 573-579): skip `Content-Type` and `Content-Length`, and store every
other header value under the key `TranslateHeader(name).c_str()` (the environ
key, as the C string Python receives). -/
def environHttpEntries (headers : List (ByteStr × ByteStr)) :
    List (ByteStr × ByteStr) :=
  headers.filterMap fun p =>
    if HeaderMatch p.1 ("Content-Type".toList) ||
       HeaderMatch p.1 ("Content-Length".toList) then none
    else some (cStr (TranslateHeader p.1), p.2)

/-- The request record built by `Was::ProcessRequest` (`src/was.cxx`, the
fields wsgi.cxx consumes). -/
structure HttpRequestRec where
  remote_addr : ByteStr
  script_name : ByteStr
  server_name : ByteStr
  server_port : ByteStr
  protocol : ByteStr
  scheme : ByteStr
  uri : Uri
  headers : List (ByteStr × ByteStr)
  deriving Repr, DecidableEq

/-- One step of the header loop of `Was::ProcessRequest` (`src/was.cxx`,
lines 136-151): snoop `X-CM4all-HTTPS: on` into the scheme, split a `Host`
header at its first colon into `server_name` / optionally `server_port`,
and append the pair to the request's header list. -/
def processRequestHeader (req : HttpRequestRec) (n v : ByteStr) :
    HttpRequestRec :=
  let req :=
    if HeaderMatch n ("X-CM4all-HTTPS".toList) && v == "on".toList then
      { req with scheme := "https".toList }
    else req
  let req :=
    if HeaderMatch n ("Host".toList) then
      let req := { req with server_name := v.takeWhile (· ≠ ':') }
      if v.contains ':' then
        { req with server_port := (v.dropWhile (· ≠ ':')).drop 1 }
      else req
    else req
  { req with headers := req.headers ++ [(n, v)] }

/-- Request construction in `Was::ProcessRequest` from `src/was.cxx`
(lines 107-156): the initializer list (note `server_name = "localhost"`,
`server_port = "80"`, `scheme = "http"`, path/query defaulting to the
accepted URI's split when the transport supplies none), then the header
loop, then the empty-`server_port` default of 443 for https / 80 otherwise. -/
def buildRequest (script_name : Option ByteStr) (path query : Option ByteStr)
    (uri : ByteStr) (remote_host : Option ByteStr)
    (headers : List (ByteStr × ByteStr)) : HttpRequestRec :=
  let parsed_uri := Uri.split uri
  let remote_host_sv := remote_host.getD []
  let init : HttpRequestRec :=
    { remote_addr := remote_host_sv.takeWhile (· ≠ ':')
      script_name := script_name.getD []
      server_name := "localhost".toList
      server_port := "80".toList
      protocol := "HTTP/1.1".toList
      scheme := "http".toList
      uri := { path := path.getD parsed_uri.path
               query := query.getD parsed_uri.query }
      headers := [] }
  let req := headers.foldl (fun r p => processRequestHeader r p.1 p.2) init
  if req.server_port.isEmpty then
    { req with server_port :=
        if req.scheme == "https".toList then "443".toList else "80".toList }
  else req

/-- The `QUERY_STRING` environ value set by `WsgiRequestHandler::Process`
(`src/wsgi.cxx` line 544): `native_string(req.uri.query)`, a byte-identity
Latin-1 decode of the stored query slice. -/
def environQueryStringValue (req : HttpRequestRec) : ByteStr :=
  req.uri.query

/-- The body-iteration loop of `WsgiRequestHandler::Process` from
`src/wsgi.cxx` (lines 612-634), including the post-loop header flush for an
empty iterable: before the first chunk (and after an empty iteration) the
headers are sent, failing with the `start_response must be called...` runtime
error when the stored status is still 0; each chunk then goes through
`SendBody`.  A C++ exception (runtime error or SendBody overflow) stops the
loop and propagates.  `resp` is the response record as left by the
application's `start_response` calls. -/
def processIteration (resp : HttpResponse) (r : WasResponder)
    (chunks : List ByteStr) : List WasEvent × Except String WasResponder :=
  match chunks with
  | [] =>
    if !r.headers_sent then
      if resp.status = 0 then
        ([], Except.error "start_response must be called before the WSGI application yields the first body string")
      else
        let sh := r.SendHeaders resp
        (sh.1, Except.ok sh.2)
    else ([], Except.ok r)
  | c :: rest =>
    let flush : List WasEvent × Except String WasResponder :=
      if !r.headers_sent then
        if resp.status = 0 then
          ([], Except.error "start_response must be called before the WSGI application yields the first body string")
        else
          let sh := r.SendHeaders resp
          (sh.1, Except.ok sh.2)
      else ([], Except.ok r)
    match flush.2 with
    | Except.error e => (flush.1, Except.error e)
    | Except.ok r1 =>
      let sb := r1.SendBody c
      match sb.2 with
      | Except.error e => (flush.1 ++ sb.1, Except.error e)
      | Except.ok r2 =>
        let tail := processIteration resp r2 rest
        (flush.1 ++ sb.1 ++ tail.1, tail.2)

/-- The result-consumption phase of `WsgiRequestHandler::Process` from
`src/wsgi.cxx` (lines 612-647): iterate the application result and send the
body, then re-raise a pending Python error from `PyIter_Next` (modelled by
`iterError`), and only then, on the straight-line path, call `close()` when
the result object has such an attribute.  There is no try/finally: a C++
exception thrown anywhere above the `close()` call propagates out of
`Process` before `close()` is reached.  Returns
`(transport events, whether close() was invoked, outcome)`. -/
def processResultPhase (resp : HttpResponse) (r : WasResponder)
    (chunks : List ByteStr) (iterError hasClose : Bool) :
    List WasEvent × Bool × Except String WasResponder :=
  match processIteration resp r chunks with
  | (evs, Except.error e) => (evs, false, Except.error e)
  | (evs, Except.ok r') =>
    if iterError then (evs, false, Except.error "python exception from result iterator")
    else if hasClose then (evs, true, Except.ok r')
    else (evs, false, Except.ok r')

/-! ## Helper lemmas -/

/-- Taking `min l.length k` elements is the same as taking `k`. -/
theorem take_min_length {α : Type} (l : List α) (k : Nat) :
    l.take (min l.length k) = l.take k := by
  rcases Nat.le_total l.length k with h | h
  · rw [Nat.min_eq_left h, List.take_length, List.take_of_length_le h]
  · rw [Nat.min_eq_right h]

/-- The 4096-byte read loop returns exactly the unread remainder of the
stream, performs at least one `Read` call, and does not change the stored
data. -/
theorem ReadToEof_bytes (s : StringInputStream) :
    (ReadToEof s).1 = s.data.drop s.cursor ∧ 1 ≤ (ReadToEof s).2.1 := by
  generalize hm : s.data.length - s.cursor = m
  induction m using Nat.strong_induction_on generalizing s with
  | _ m ih =>
    rw [ReadToEof]
    by_cases h : (s.Read 4096).1 > 0
    · rw [dif_pos h]
      simp only [StringInputStream.Read] at h ⊢
      have hrec := ih (s.data.length - (s.cursor + min (s.data.length - s.cursor) 4096))
        (by omega) ⟨s.data, s.cursor + min (s.data.length - s.cursor) 4096⟩ rfl
      refine ⟨?_, by omega⟩
      rw [hrec.1]
      have hdd : s.data.drop (s.cursor + min (s.data.length - s.cursor) 4096)
          = (s.data.drop s.cursor).drop (min (s.data.length - s.cursor) 4096) := by
        rw [List.drop_drop]
      rw [hdd, List.take_append_drop]
    · rw [dif_neg h]
      simp only [StringInputStream.Read] at h ⊢
      have : s.data.length ≤ s.cursor := by omega
      exact ⟨(List.drop_eq_nil_iff).mpr this |>.symm, le_refl 1⟩

/-- A full run of `SendBody` calls on a responder with a known remaining
content length never writes more than that remaining length. -/
theorem sendBodySeq_written_le (chunks : List ByteStr) :
    ∀ (r : WasResponder) (l : Nat), r.content_length_left = some l →
      writtenLen (sendBodySeq r chunks).1 ≤ l := by
  induction chunks with
  | nil =>
    intro r l _
    simp [sendBodySeq, writtenLen]
  | cons c rest ih =>
    intro r l h
    simp only [sendBodySeq, WasResponder.SendBody, h]
    by_cases hov : c.length > l
    · simp only [if_pos hov, writtenLen, List.map_cons, List.map_nil, eventBytes,
        List.sum_cons, List.sum_nil, List.length_take]
      omega
    · simp only [if_neg hov]
      have htail := ih { r with content_length_left := some (l - c.length) }
        (l - c.length) rfl
      simp only [writtenLen, List.map_append, List.sum_append, List.map_cons,
        List.map_nil, eventBytes, List.sum_cons, List.sum_nil, List.length_take] at htail ⊢
      omega

/-- The `start_response` header loop never changes the stored status. -/
theorem addHeaders_status (hs : List (ByteStr × ByteStr)) :
    ∀ resp : HttpResponse, (addHeaders resp hs).1.status = resp.status := by
  induction hs with
  | nil => intro resp; rfl
  | cons p rest ih =>
    intro resp
    simp only [addHeaders, addHeader]
    rcases hc : check_header_name p.1 with _ | e
    · rcases hv : check_header_value p.2 with _ | e
      · by_cases hcl : HeaderMatch p.1 ("Content-Length".toList) = true
        · simp only [hcl, if_true]
          rcases hp : ParseInteger (2 ^ 64) p.2 with _ | num
          · rfl
          · exact ih _
        · simp only [eq_false_of_ne_true hcl, if_false]
          exact ih _
      · rfl
    · rfl

/-- If no accumulated forwarded header has a name matching `Content-Length`,
the header loop preserves that: the loop skips `Content-Length` instead of
appending it. -/
theorem addHeaders_no_cl (hs : List (ByteStr × ByteStr)) :
    ∀ resp : HttpResponse,
      (∀ p ∈ resp.headers, HeaderMatch p.1 ("Content-Length".toList) = false) →
      ∀ p ∈ (addHeaders resp hs).1.headers,
        HeaderMatch p.1 ("Content-Length".toList) = false := by
  induction hs with
  | nil => intro resp h; exact h
  | cons q rest ih =>
    intro resp h
    simp only [addHeaders, addHeader]
    rcases hc : check_header_name q.1 with _ | e
    · rcases hv : check_header_value q.2 with _ | e
      · by_cases hcl : HeaderMatch q.1 ("Content-Length".toList) = true
        · simp only [hcl, if_true]
          rcases hp : ParseInteger (2 ^ 64) q.2 with _ | num
          · exact h
          · exact ih _ h
        · simp only [eq_false_of_ne_true hcl, if_false]
          refine ih _ ?_
          intro p hp
          simp only [List.mem_append, List.mem_singleton] at hp
          rcases hp with hp | hp
          · exact h p hp
          · subst hp
            exact eq_false_of_ne_true hcl
      · exact h
    · exact h

/-- The request-header loop of `Was::ProcessRequest` never touches the URI
slices. -/
theorem processRequestHeader_uri (r : HttpRequestRec) (n v : ByteStr) :
    (processRequestHeader r n v).uri = r.uri := by
  simp only [processRequestHeader]
  split <;> split <;> (try split) <;> rfl

/-- The request built by `Was::ProcessRequest` carries exactly the URI slices
of its initializer list. -/
theorem buildRequest_uri (script_name path query : Option ByteStr)
    (uri : ByteStr) (remote_host : Option ByteStr)
    (headers : List (ByteStr × ByteStr)) :
    (buildRequest script_name path query uri remote_host headers).uri
      = { path := path.getD (Uri.split uri).path
          query := query.getD (Uri.split uri).query } := by
  simp only [buildRequest]
  have hfold : ∀ (hs : List (ByteStr × ByteStr)) (r : HttpRequestRec),
      (hs.foldl (fun r p => processRequestHeader r p.1 p.2) r).uri = r.uri := by
    intro hs
    induction hs with
    | nil => intro r; rfl
    | cons p rest ih =>
      intro r
      rw [List.foldl_cons, ih, processRequestHeader_uri]
  split
  · simp only [hfold]
  · simp only [hfold]

/-- Dropping up to the first question mark of a string that contains one
leaves the question mark at the head. -/
theorem head_dropWhile_ne (l : ByteStr) (h : '?' ∈ l) :
    (l.dropWhile (· ≠ '?')).head? = some '?' := by
  induction l with
  | nil => cases h
  | cons c rest ih =>
    by_cases hc : c = '?'
    · subst hc
      simp [List.dropWhile]
    · have hrest : '?' ∈ rest := by
        rcases List.mem_cons.mp h with h1 | h1
        · exact absurd h1.symm hc
        · exact h1
      have hstep : (c :: rest).dropWhile (· ≠ '?') = rest.dropWhile (· ≠ '?') := by
        simp [List.dropWhile_cons, hc]
      rw [hstep]
      exact ih hrest

/-! ## Claims -/

/-- C1: the spec claims the environ key for a request header `X-Foo-Bar` is
`HTTP_X_FOO_BAR`.  The code disagrees: `TranslateHeader` constructs
`size + 5` NUL bytes and *appends* `"HTTP_"` after them, so the translated
name sits in front of the NUL padding and the `HTTP_` suffix is cut off by
`c_str()`; the environ key actually installed for `X-Foo-Bar` is
`X_FOO_BAR`.  This theorem evaluates the code at that failing input. -/
theorem C1_translated_environ_key :
    environHttpEntries [("X-Foo-Bar".toList, "v".toList)]
      = [("X_FOO_BAR".toList, "v".toList)] ∧
    cStr (TranslateHeader ("X-Foo-Bar".toList)) ≠ "HTTP_X_FOO_BAR".toList ∧
    TranslateHeader ("X-Foo-Bar".toList)
      = "X_FOO_BAR".toList ++ List.replicate 5 '\x00' ++ "HTTP_".toList ∧
    environHttpEntries
        [("Content-Type".toList, "a".toList), ("Content-Length".toList, "1".toList)]
      = [] := by
  decide

/-- C2: the spec claims that a `start_response` call carrying `exc_info`
made before the headers are sent *discards* the previously accumulated
header list and replaces it.  The code only ever `emplace_back`s into
`response.headers` and never clears it, so the second call *appends*: after
a first call storing `X-A: 1` and an `exc_info` call supplying only
`X-B: 2`, the stored list is `[X-A: 1, X-B: 2]`, not `[X-B: 2]`.  The
already-sent re-raise half of the claim does hold (last conjunct). -/
theorem C2_exc_info_appends_headers :
    ((StartResponse
        (StartResponse initWsgiState ("200 OK".toList)
          [("X-A".toList, "1".toList)] false).1
        ("500 Internal Server Error".toList)
        [("X-B".toList, "2".toList)] true).1.response.headers
      = [("X-A".toList, "1".toList), ("X-B".toList, "2".toList)]) ∧
    ((StartResponse
        (StartResponse initWsgiState ("200 OK".toList)
          [("X-A".toList, "1".toList)] false).1
        ("500 Internal Server Error".toList)
        [("X-B".toList, "2".toList)] true).1.response.headers
      ≠ [("X-B".toList, "2".toList)]) ∧
    ((StartResponse initWsgiState ("200 OK".toList)
        [("X-A".toList, "1".toList)] false).1.responder.headers_sent = false) ∧
    (StartResponse
        { response := { status := 200 }, responder := { headers_sent := true } }
        ("500 Internal Server Error".toList) [] true
      = ({ response := { status := 200 }, responder := { headers_sent := true } },
         [], some PyErr.reraise)) := by
  decide

/-- C3: the spec claims `close` is invoked after iterating the application
result both on success and on exception.  The code has no try/finally around
the iteration in `WsgiRequestHandler::Process`, so a C++ exception (here: the
`SendBody` write-overflow raised when a chunk arrives for a response declared
`Content-Length: 0`) propagates before the `close()` call is reached: the
close flag stays `false` on the error outcome, while the success path (same
result object, fitting body) does reach `close()`. -/
theorem C3_close_not_called_on_exception :
    ((processResultPhase { status := 200, headers := [], content_length := some 0 }
        {} [['x']] false true).2.1 = false ∧
     isErrorResult (processResultPhase
        { status := 200, headers := [], content_length := some 0 }
        {} [['x']] false true).2.2 = true) ∧
    ((processResultPhase { status := 200, headers := [], content_length := some 5 }
        {} ["hello".toList] false true).2.1 = true ∧
     isErrorResult (processResultPhase
        { status := 200, headers := [], content_length := some 5 }
        {} ["hello".toList] false true).2.2 = false) := by
  decide

/-- C4: the spec claims that with `X-CM4all-HTTPS: on` and no `Host` header
the request gets scheme `https` and `server_port` `443`.  The code
initializes `server_port` to `"80"` in the `HttpRequest` initializer list,
so the `if (request.server_port.empty())` default-to-443 branch can never
fire for a request without a `Host` header: the scheme becomes `https` but
the port stays `80`.  The second half of the claim (no headers at all gives
port `80`) does hold. -/
theorem C4_https_without_host_keeps_port_80 :
    (buildRequest none none none "/".toList none
        [("X-CM4all-HTTPS".toList, "on".toList)]).scheme = "https".toList ∧
    (buildRequest none none none "/".toList none
        [("X-CM4all-HTTPS".toList, "on".toList)]).server_port = "80".toList ∧
    (buildRequest none none none "/".toList none
        [("X-CM4all-HTTPS".toList, "on".toList)]).server_port ≠ "443".toList ∧
    (buildRequest none none none "/".toList none []).server_port
      = "80".toList := by
  decide

/-- C10 (counterexample): the claim's final conjunct says `Read` returns 0
exactly when the whole string has been consumed, but a `Read` into an empty
destination buffer returns 0 while a byte of the stream is still unread. -/
theorem C10_read_zero_dest_counterexample :
    (StringInputStream.Read ⟨"a".toList, 0⟩ 0).1 = 0 ∧
    (⟨"a".toList, 0⟩ : StringInputStream).cursor ≠ ("a".toList).length := by
  decide

/-- C10 (amended): every `Read(dest)` returns exactly
`min(unread, dest.size())`, copies precisely the next unread bytes,
advances the cursor by that amount, keeps the cursor within the data (so
successive reads return consecutive slices), and returns 0 exactly when the
whole string has been consumed **or the destination buffer is empty**. -/
theorem C10_read_exact (s : StringInputStream) (destSize : Nat)
    (h : s.cursor ≤ s.data.length) :
    (s.Read destSize).1 = min (s.data.length - s.cursor) destSize ∧
    (s.Read destSize).2.1 = (s.data.drop s.cursor).take ((s.Read destSize).1) ∧
    (s.Read destSize).2.2.data = s.data ∧
    (s.Read destSize).2.2.cursor = s.cursor + (s.Read destSize).1 ∧
    (s.Read destSize).2.2.cursor ≤ s.data.length ∧
    ((s.Read destSize).1 = 0 ↔ (s.cursor = s.data.length ∨ destSize = 0)) := by
  have h5 : (s.Read destSize).2.2.cursor ≤ s.data.length := by
    simp only [StringInputStream.Read]
    omega
  have h6 : (s.Read destSize).1 = 0 ↔ (s.cursor = s.data.length ∨ destSize = 0) := by
    simp only [StringInputStream.Read]
    omega
  exact ⟨rfl, rfl, rfl, rfl, h5, h6⟩

/-- Witness for C10: the amended statement evaluated on the stream `"abc"`
with cursor 1 and a 5-byte destination. -/
theorem C10_read_exact_witness :
    ((⟨"abc".toList, 1⟩ : StringInputStream).Read 5).2.2.cursor
      ≤ ("abc".toList).length :=
  (C10_read_exact ⟨"abc".toList, 1⟩ 5 (by decide)).2.2.2.2.1

/-- C5: with a known content length, every `SendBody` call in state
`HeadersSent` writes exactly `min(chunk length, content_length_left)` bytes,
raises the write-overflow error iff the chunk exceeds what is left, and any
sequence of `SendBody` calls (stopping at the first exception, as the C++
exception ends the request) writes at most the declared `Content-Length` in
total. -/
theorem C5_sendbody_capped_and_bounded (cl : Nat) (data : ByteStr)
    (chunks : List ByteStr) :
    ((({} : WasResponder).SendHeaders
        { status := 200, headers := [], content_length := some cl }).2.headers_sent
      = true) ∧
    (writtenLen ((({} : WasResponder).SendHeaders
        { status := 200, headers := [], content_length := some cl }).2.SendBody
          data).1
      = min data.length cl) ∧
    (isErrorResult ((({} : WasResponder).SendHeaders
        { status := 200, headers := [], content_length := some cl }).2.SendBody
          data).2 = true
      ↔ cl < data.length) ∧
    (writtenLen (sendBodySeq (({} : WasResponder).SendHeaders
        { status := 200, headers := [], content_length := some cl }).2 chunks).1
      ≤ cl) := by
  have hresp : (({} : WasResponder).SendHeaders
      { status := 200, headers := [], content_length := some cl }).2
      = { headers_sent := true, content_length_left := some cl } := by
    rcases cl with _ | n <;> rfl
  rw [hresp]
  refine ⟨rfl, ?_, ?_, ?_⟩
  · simp only [WasResponder.SendBody, writtenLen, List.map_cons, List.map_nil,
      eventBytes, List.sum_cons, List.sum_nil, List.length_take]
    omega
  · simp only [WasResponder.SendBody]
    by_cases hov : data.length > cl
    · simp only [if_pos hov, isErrorResult]
      exact iff_of_true trivial hov
    · simp only [if_neg hov, isErrorResult]
      exact iff_of_false (by simp) (by omega)
  · exact sendBodySeq_written_le chunks _ cl rfl

/-- A `start_response` call that runs to completion without an error always
leaves a non-zero (validated) status behind. -/
theorem startResponseMain_ok_status_ne (st : WsgiState) (status : ByteStr)
    (hs : List (ByteStr × ByteStr))
    (hok : (startResponseMain st status hs).2.2 = none) :
    (startResponseMain st status hs).1.response.status ≠ 0 := by
  revert hok
  simp only [startResponseMain]
  rcases hp : ParseInteger (2 ^ 16) (status.takeWhile (· ≠ ' ')) with _ | code
  · intro hok
    simp at hok
  · rcases hv : http_status_is_valid code with _ | _
    · intro hok
      simp [hv] at hok
    · rcases ha : addHeaders
          { status := code, headers := st.response.headers,
            content_length := st.response.content_length } hs with ⟨resp', err⟩
      have hst : resp'.status = code := by
        have h2 := addHeaders_status hs
          { status := code, headers := st.response.headers,
            content_length := st.response.content_length }
        rw [ha] at h2
        exact h2
      have hcode : code ≠ 0 := by
        simp only [http_status_is_valid, Bool.and_eq_true, decide_eq_true_eq] at hv
        omega
      rcases err with _ | e
      · intro hok
        by_cases hcl : resp'.content_length = some 0
        · simp [hv, ha, hcl, hst, hcode]
        · simp [hv, ha, hcl, hst, hcode]
      · intro hok
        simp [hv, ha] at hok

/-- C7: without `exc_info`, a second `start_response` call — one made after a
previous call already stored a non-zero status — raises the AssertionError
and leaves the state (status and header list included) completely untouched;
moreover any successful no-`exc_info` call leaves a non-zero status behind,
so in a sequence of such calls at most the first can succeed and produce
headers. -/
theorem C7_second_call_raises (st : WsgiState) (status : ByteStr)
    (hs : List (ByteStr × ByteStr)) (h : st.response.status ≠ 0) :
    (StartResponse st status hs false
      = (st, [], some (PyErr.assertionError
          "start_response must not be called more than once without exc_info"))) ∧
    ∀ (st2 : WsgiState) (status2 : ByteStr) (hs2 : List (ByteStr × ByteStr)),
      (StartResponse st2 status2 hs2 false).2.2 = none →
      (StartResponse st2 status2 hs2 false).1.response.status ≠ 0 := by
  constructor
  · simp [StartResponse, h]
  · intro st2 status2 hs2 hok
    by_cases h2 : st2.response.status = 0
    · have hok2 : (startResponseMain st2 status2 hs2).2.2 = none := by
        simpa [StartResponse, h2] using hok
      have hne := startResponseMain_ok_status_ne st2 status2 hs2 hok2
      simpa [StartResponse, h2] using hne
    · simp [StartResponse, h2] at hok

/-- Witness for C7: the second call after a successful `200 OK` call raises
the AssertionError and leaves the state unchanged. -/
theorem C7_second_call_raises_witness :
    StartResponse { response := { status := 200 }, responder := {} }
        ("204 No Content".toList) [] false
      = ({ response := { status := 200 }, responder := {} }, [],
         some (PyErr.assertionError
           "start_response must not be called more than once without exc_info")) :=
  (C7_second_call_raises { response := { status := 200 }, responder := {} }
    ("204 No Content".toList) [] (by decide)).1

/-- C8: `wsgi.input.read(size)`: with `size == 0` it returns empty bytes
without any underlying `Read`; with `size > 0` it performs exactly one
underlying `Read` into a `size`-byte buffer and returns the bytes of the
length actually read; with `size < 0` it loops over 4096-byte reads until
`Read` returns 0 and returns the concatenation of all chunks — which is the
whole unread remainder of the stream. -/
theorem C8_wsgi_input_read (s : StringInputStream) (size : Int) :
    (size = 0 → WsgiInputStream.read s size = ([], 0, s)) ∧
    (size > 0 →
      (WsgiInputStream.read s size).2.1 = 1 ∧
      (WsgiInputStream.read s size).1 = (s.data.drop s.cursor).take size.toNat ∧
      (WsgiInputStream.read s size).1.length = (s.Read size.toNat).1) ∧
    (size < 0 →
      (WsgiInputStream.read s size).1 = s.data.drop s.cursor ∧
      1 ≤ (WsgiInputStream.read s size).2.1) := by
  refine ⟨?_, ?_, ?_⟩
  · intro h0
    simp [WsgiInputStream.read, h0]
  · intro hpos
    have hne : ¬size = 0 := by omega
    simp only [WsgiInputStream.read, if_neg hne, if_pos hpos]
    refine ⟨trivial, ?_, ?_⟩
    · show (s.data.drop s.cursor).take (min (s.data.length - s.cursor) size.toNat)
        = (s.data.drop s.cursor).take size.toNat
      have hlen : (s.data.drop s.cursor).length = s.data.length - s.cursor :=
        List.length_drop s.cursor s.data
      rw [← hlen]
      exact take_min_length (s.data.drop s.cursor) size.toNat
    · show ((s.data.drop s.cursor).take (min (s.data.length - s.cursor) size.toNat)).length
        = min (s.data.length - s.cursor) size.toNat
      rw [List.length_take, List.length_drop]
      omega
  · intro hneg
    have hne : ¬size = 0 := by omega
    have hnpos : ¬size > 0 := by omega
    simp only [WsgiInputStream.read, if_neg hne, if_neg hnpos]
    exact ReadToEof_bytes s

/-- Witness for C8: reading with the default size `-1` from a stream holding
`"abcdef"` with cursor 1 yields the remaining bytes `"bcdef"`. -/
theorem C8_wsgi_input_read_witness :
    (WsgiInputStream.read ⟨"abcdef".toList, 1⟩ (-1)).1 = "bcdef".toList :=
  (((C8_wsgi_input_read ⟨"abcdef".toList, 1⟩ (-1)).2.2 (by decide)).1).trans (by decide)

/-- C9: when the transport supplies no query string and the accepted URI
contains a question mark, the query slice kept by `Uri::split` retains the
leading question mark, is stored verbatim in the request record, and the
`QUERY_STRING` environ value therefore begins with the question mark. -/
theorem C9_query_string_keeps_question_mark (uri : ByteStr)
    (script_name path remote_host : Option ByteStr)
    (headers : List (ByteStr × ByteStr)) (h : '?' ∈ uri) :
    (buildRequest script_name path none uri remote_host headers).uri.query
      = (Uri.split uri).query ∧
    (Uri.split uri).query = uri.dropWhile (· ≠ '?') ∧
    environQueryStringValue (buildRequest script_name path none uri remote_host headers)
      = uri.dropWhile (· ≠ '?') ∧
    (environQueryStringValue
        (buildRequest script_name path none uri remote_host headers)).head?
      = some '?' := by
  have hcont : uri.contains '?' = true := by
    simp [List.contains, List.elem_eq_mem, h]
  have hsplit : (Uri.split uri).query = uri.dropWhile (· ≠ '?') := by
    simp [Uri.split, h]
  have hreq : (buildRequest script_name path none uri remote_host headers).uri.query
      = (Uri.split uri).query := by
    rw [buildRequest_uri]
    rfl
  refine ⟨hreq, hsplit, ?_, ?_⟩
  · rw [environQueryStringValue, hreq, hsplit]
  · rw [environQueryStringValue, hreq, hsplit]
    exact head_dropWhile_ne uri h

/-- Witness for C9: the URI `/a?b=1` with no transport query yields the
`QUERY_STRING` value `?b=1`. -/
theorem C9_query_string_witness :
    environQueryStringValue (buildRequest none none none "/a?b=1".toList none [])
      = "?b=1".toList :=
  ((C9_query_string_keeps_question_mark "/a?b=1".toList none none none []
    (by decide)).2.2.1).trans (by decide)

/-- C6: if the header list passed to `start_response` yields an extracted
`Content-Length` of 0 (and every header passes validation), then
`start_response` itself sends the headers before returning: the transport
sees the status, the forwarded headers and an immediate `end()` — never a
`set_length`, and never a `Content-Length` header — and a subsequent
non-empty body chunk writes zero bytes and raises the write-overflow
error. -/
theorem C6_content_length_zero_sends_headers (status : ByteStr)
    (hs : List (ByteStr × ByteStr)) (code : Nat) (resp' : HttpResponse)
    (hparse : ParseInteger (2 ^ 16) (status.takeWhile (· ≠ ' ')) = some code)
    (hvalid : http_status_is_valid code = true)
    (hadd : addHeaders { status := code, headers := [], content_length := none } hs
      = (resp', none))
    (hcl : resp'.content_length = some 0) :
    (StartResponse initWsgiState status hs false).2.2 = none ∧
    (StartResponse initWsgiState status hs false).1.responder.headers_sent = true ∧
    (StartResponse initWsgiState status hs false).2.1
      = WasEvent.hstatus code
          :: resp'.headers.map (fun p => WasEvent.set_header p.1 p.2)
          ++ [WasEvent.wend] ∧
    (∀ n, WasEvent.set_length n ∉ (StartResponse initWsgiState status hs false).2.1) ∧
    (∀ n v, HeaderMatch n ("Content-Length".toList) = true →
      WasEvent.set_header n v ∉ (StartResponse initWsgiState status hs false).2.1) ∧
    (∀ c : ByteStr, c ≠ [] →
      ((StartResponse initWsgiState status hs false).1.responder.SendBody c).1
          = [WasEvent.write []] ∧
      isErrorResult
          ((StartResponse initWsgiState status hs false).1.responder.SendBody c).2
          = true) := by
  have hst : resp'.status = code := by
    have h2 := addHeaders_status hs { status := code, headers := [], content_length := none }
    rw [hadd] at h2
    exact h2
  have hnoCL : ∀ p ∈ resp'.headers, HeaderMatch p.1 ("Content-Length".toList) = false := by
    have h3 := addHeaders_no_cl hs { status := code, headers := [], content_length := none }
      (by intro p hp; cases hp)
    simp only [hadd] at h3
    exact h3
  have h1 : StartResponse initWsgiState status hs false
      = startResponseMain initWsgiState status hs := by
    simp [StartResponse, initWsgiState]
  have hmain : startResponseMain initWsgiState status hs
      = ({ response := resp',
           responder := { headers_sent := true, content_length_left := some 0 } },
         WasEvent.hstatus code
           :: resp'.headers.map (fun p => WasEvent.set_header p.1 p.2)
           ++ [WasEvent.wend],
         none) := by
    unfold startResponseMain
    rcases hp2 : ParseInteger (2 ^ 16) (status.takeWhile (· ≠ ' ')) with _ | code2
    · rw [hparse] at hp2
      cases hp2
    · rw [hparse] at hp2
      injection hp2 with hc
      subst hc
      simp [initWsgiState, hvalid, hadd, hcl, hst, WasResponder.SendHeaders]
  rw [h1, hmain]
  refine ⟨rfl, rfl, rfl, ?_, ?_, ?_⟩
  · intro n hmem
    simp at hmem
  · intro n v hm hmem
    simp only [List.mem_cons, List.mem_append, List.mem_map, List.mem_singleton] at hmem
    rcases hmem with (hmem | hmem) | hmem | hmem
    · cases hmem
    · rcases hmem with ⟨p, hp, heq⟩
      have hf := hnoCL p hp
      injection heq with he1 he2
      rw [he1] at hf
      rw [hf] at hm
      cases hm
    · cases hmem
    · cases hmem
  · intro c hcne
    have hlen : 0 < c.length := List.length_pos.mpr hcne
    constructor
    · simp [WasResponder.SendBody]
    · simp [WasResponder.SendBody, isErrorResult, hlen]

/-- Witness for C6: the concrete call with status `200 OK` and headers
`Content-Type: text/plain`, `Content-Length: 0`. -/
theorem C6_content_length_zero_witness :
    (StartResponse initWsgiState ("200 OK".toList)
        [("Content-Type".toList, "text/plain".toList),
         ("Content-Length".toList, "0".toList)] false).2.1
      = WasEvent.hstatus 200
          :: [(("Content-Type".toList, "text/plain".toList))].map
               (fun p => WasEvent.set_header p.1 p.2)
          ++ [WasEvent.wend] ∧
    isErrorResult ((StartResponse initWsgiState ("200 OK".toList)
        [("Content-Type".toList, "text/plain".toList),
         ("Content-Length".toList, "0".toList)] false).1.responder.SendBody
        ['x']).2 = true := by
  have h := C6_content_length_zero_sends_headers ("200 OK".toList)
    [("Content-Type".toList, "text/plain".toList),
     ("Content-Length".toList, "0".toList)]
    200
    { status := 200, headers := [("Content-Type".toList, "text/plain".toList)],
      content_length := some 0 }
    (by decide) (by decide) (by decide) (by decide)
  exact ⟨h.2.2.1, (h.2.2.2.2.2 ['x'] (by decide)).2⟩
